import Mathlib

/-!
Verification of the conversation/knowledge store and conversation
orchestrator of the chatbot service (src/api.py).

The SQLite-backed store is shallowly embedded: each table is a Lean list of
rows in rowid (insertion) order, AUTOINCREMENT ids and the server-assigned
CURRENT_TIMESTAMP column are modelled by counters carried in the state.
Timestamps are strictly increasing in insertion order, so the query
ORDER BY timestamp DESC is list reversal.  Each store operation holds the
process-wide db_lock for its whole transaction, so an operation is one
atomic state transition; a concurrent execution of operations is any
sequential interleaving of these transitions.  The Python try/except
blocks that turn I/O failures into sentinel results are modelled by
fallible wrappers taking a boolean oracle that says whether the underlying
database raised.
-/

/-- A row of the conversations table:
id INTEGER PRIMARY KEY AUTOINCREMENT, user_message TEXT, ai_response TEXT,
timestamp DATETIME DEFAULT CURRENT_TIMESTAMP. -/
structure Conversation where
  id : Nat
  user_message : String
  ai_response : String
  timestamp : Nat
deriving Repr, DecidableEq

/-- A row of the knowledge table:
id INTEGER PRIMARY KEY AUTOINCREMENT, category TEXT, key TEXT, value TEXT,
UNIQUE(category, key). -/
structure KnowledgeFact where
  id : Nat
  category : String
  key : String
  value : String
deriving Repr, DecidableEq

/-- The database state: the two tables in rowid order plus the
AUTOINCREMENT counters and the timestamp clock. -/
structure DBState where
  conversations : List Conversation
  knowledge : List KnowledgeFact
  nextConvId : Nat
  nextKnowId : Nat
  clock : Nat
deriving Repr, DecidableEq

/-- The freshly initialized database (_init_database creates the two
empty tables; SQLite AUTOINCREMENT starts handing out ids at 1). -/
def initState : DBState :=
  { conversations := [], knowledge := [], nextConvId := 1, nextKnowId := 1, clock := 0 }

/-- save_conversation: INSERT INTO conversations (user_message, ai_response)
VALUES (?, ?).  The id is the next AUTOINCREMENT value and the timestamp the
server clock.  Returns the success flag together with the new state. -/
def save_conversation (st : DBState) (user_message ai_response : String) :
    Bool × DBState :=
  (true,
   { st with
     conversations :=
       st.conversations ++
         [{ id := st.nextConvId, user_message := user_message,
            ai_response := ai_response, timestamp := st.clock }],
     nextConvId := st.nextConvId + 1,
     clock := st.clock + 1 })

/-- The row predicate of the WHERE category = ? AND key = ? clauses. -/
def matchesCK (category key : String) (f : KnowledgeFact) : Bool :=
  f.category == category && f.key == key

/-- save_knowledge: INSERT OR REPLACE INTO knowledge (category, key, value)
VALUES (?, ?, ?).  REPLACE deletes any row conflicting on the
UNIQUE(category, key) constraint and inserts a fresh row with a new
AUTOINCREMENT id at the end of the table. -/
def save_knowledge (st : DBState) (category key value : String) :
    Bool × DBState :=
  (true,
   { st with
     knowledge :=
       st.knowledge.filter (fun f => !(matchesCK category key f)) ++
         [{ id := st.nextKnowId, category := category, key := key, value := value }],
     nextKnowId := st.nextKnowId + 1 })

/-- get_knowledge: SELECT value FROM knowledge WHERE category = ? AND key = ?,
fetchone, then result[0] if result else None. -/
def get_knowledge (st : DBState) (category key : String) : Option String :=
  ((st.knowledge.filter (matchesCK category key)).head?).map (fun f => f.value)

/-- The rows returned by SELECT user_message, ai_response FROM conversations
ORDER BY timestamp DESC LIMIT ?.  Timestamps strictly increase in insertion
order, so descending timestamp order is the reverse of the table. -/
def historyRows (st : DBState) (limit : Nat) : List Conversation :=
  (st.conversations.reverse).take limit

/-- get_conversation_history: the (user_message, ai_response) projection of
the LIMIT-bounded, most-recent-first query. -/
def get_conversation_history (st : DBState) (limit : Nat) :
    List (String × String) :=
  (historyRows st limit).map (fun c => (c.user_message, c.ai_response))

/-- Fallible save_conversation: the except branch of the try/except prints
and returns False; an exception inside the transaction happens before
commit, so the state is unchanged. -/
def save_conversation_f (fail : Bool) (st : DBState)
    (user_message ai_response : String) : Bool × DBState :=
  if fail then (false, st) else save_conversation st user_message ai_response

/-- Fallible save_knowledge: the except branch returns False. -/
def save_knowledge_f (fail : Bool) (st : DBState) (category key value : String) :
    Bool × DBState :=
  if fail then (false, st) else save_knowledge st category key value

/-- Fallible get_knowledge: the except branch returns None. -/
def get_knowledge_f (fail : Bool) (st : DBState) (category key : String) :
    Option String :=
  if fail then none else get_knowledge st category key

/-- Fallible get_conversation_history: the except branch returns []. -/
def get_conversation_history_f (fail : Bool) (st : DBState) (limit : Nat) :
    List (String × String) :=
  if fail then [] else get_conversation_history st limit

/-- One store operation, as named by the spec's Store interface. -/
inductive StoreOp where
  | saveConv (user_message ai_response : String)
  | saveKnow (category key value : String)
  | getKnow (category key : String)
  | getHist (limit : Nat)
deriving Repr, DecidableEq

/-- The state transition of one store operation.  The two SELECT operations
only read: they leave the state unchanged. -/
def applyOp (st : DBState) (op : StoreOp) : DBState :=
  match op with
  | .saveConv u a => (save_conversation st u a).2
  | .saveKnow c k v => (save_knowledge st c k v).2
  | .getKnow _ _ => st
  | .getHist _ => st

/-- The UNIQUE(category, key) invariant: no two knowledge rows share a
(category, key) pair. -/
abbrev knowledgeUnique (st : DBState) : Prop :=
  (st.knowledge.map (fun f => (f.category, f.key))).Nodup

/-- Conversation-id sanity: ids are pairwise distinct and below the next
AUTOINCREMENT value. -/
abbrev convIdsFresh (st : DBState) : Prop :=
  (st.conversations.map (fun c => c.id)).Nodup ∧
    ∀ c ∈ st.conversations, c.id < st.nextConvId

/-- Timestamp monotonicity: timestamps strictly increase in insertion
order (CURRENT_TIMESTAMP is taken under the lock from a monotone clock). -/
abbrev convTimesMono (st : DBState) : Prop :=
  st.conversations.Pairwise (fun a b => a.timestamp < b.timestamp)

/-- Run a batch of save_conversation calls back to back (the db_lock makes
each call one atomic transition, so any concurrent execution of the batch
is such a sequence in some arrival order). -/
def runSaves (st : DBState) (batch : List (String × String)) : DBState :=
  match batch with
  | [] => st
  | p :: rest => runSaves (save_conversation st p.1 p.2).2 rest

/-- A role-tagged message of the completion request. -/
structure Message where
  role : String
  content : String
deriving Repr, DecidableEq

/-- The fixed system instruction naming the persona. -/
def systemPersona : String :=
  "Você é um assistente de IA. Seu nome é Laponia. Responda às perguntas do usuário da melhor forma possível."

/-- The message list generate_response sends: the persona system message,
a second system message carrying the context only when the context string
is non-empty (Python string truthiness), then the user message. -/
def buildMessages (prompt context : String) : List Message :=
  [{ role := "system", content := systemPersona }] ++
    (if context ≠ "" then
       [{ role := "system", content := "Contexto adicional: " ++ context }]
     else []) ++
    [{ role := "user", content := prompt }]

/-- generate_response: builds the messages and invokes the external
completion function (opaque, may raise — hence Except). -/
def generate_response (complete : List Message → Except String String)
    (prompt context : String) : Except String String :=
  complete (buildMessages prompt context)

/-- The context string of process_message:
" ".join(f"{msg[0]} -> {msg[1]}" for msg in historico_conversa). -/
def contextoOf (hist : List (String × String)) : String :=
  String.intercalate " " (hist.map (fun msg => msg.1 ++ " -> " ++ msg.2))

/-- process_message: fetch the last-2 history, flatten it into the context
string, call the completion, persist the exchange, and return the response;
any exception is caught and turned into the apologetic message (the state
is then unchanged — the save never ran). -/
def process_message (complete : List Message → Except String String)
    (st : DBState) (user_message : String) : String × DBState :=
  match generate_response complete user_message
      (contextoOf (get_conversation_history st 2)) with
  | .error e => ("Desculpe, ocorreu um erro: " ++ e, st)
  | .ok resposta => (resposta, (save_conversation st user_message resposta).2)

/-- A character Python's default str.strip removes. -/
def pyIsSpace (c : Char) : Bool :=
  c == ' ' || c == '\t' || c == '\n' || c == '\r' || c == '\x0b' || c == '\x0c'

/-- Python str.strip(): drop leading and trailing whitespace. -/
def pyStrip (s : String) : String :=
  ⟨(((s.data.dropWhile pyIsSpace).reverse).dropWhile pyIsSpace).reverse⟩

/-- Split a character list on a separator character, Python str.split
style: the empty list yields one empty field. -/
def splitOnChar (sep : Char) : List Char → List (List Char)
  | [] => [[]]
  | c :: cs =>
    match splitOnChar sep cs with
    | [] => [[]]
    | h :: t => if c == sep then [] :: h :: t else (c :: h) :: t

/-- Python s.split(sep) for a one-character separator (the code only
splits on ':'). -/
def pySplit (s : String) (sep : Char) : List String :=
  (splitOnChar sep s.data).map String.mk

/-- Python s.startswith(p). -/
def pyStartsWith (s p : String) : Bool :=
  p.data.isPrefixOf s.data

/-- Replace non-overlapping occurrences of old (non-empty in every use)
left to right, fuelled by the input length so the recursion is
structural. -/
def replaceAux (old new : List Char) : Nat → List Char → List Char
  | _, [] => []
  | 0, l => l
  | n + 1, c :: cs =>
    if old.isPrefixOf (c :: cs) then
      new ++ replaceAux old new n ((c :: cs).drop old.length)
    else c :: replaceAux old new n cs

/-- Python s.replace(old, new): every occurrence is replaced. -/
def pyReplace (s old new : String) : String :=
  ⟨replaceAux old.data new.data s.data.length s.data⟩

/-- Python truthiness of the get_knowledge result: None and the empty
string are both falsy. -/
def pythonTruthy (o : Option String) : Bool :=
  match o with
  | none => false
  | some s => s != ""

/-- The /salvar branch fires: the message starts with '/salvar' and its
':'-split has at least 3 parts. -/
def salvarApplies (msg : String) : Bool :=
  pyStartsWith msg "/salvar" && decide (3 ≤ (pySplit msg ':').length)

/-- The /recuperar branch fires: the message starts with '/recuperar' and
its ':'-split has exactly 2 parts. -/
def recuperarApplies (msg : String) : Bool :=
  pyStartsWith msg "/recuperar" && (pySplit msg ':').length == 2

/-- The chat endpoint body after request validation: the two colon-split
command forms, falling through to process_message otherwise.  The third
component records whether the AI completion path (process_message) ran. -/
def chat (complete : List Message → Except String String)
    (st : DBState) (user_message : String) : String × DBState × Bool :=
  if salvarApplies user_message then
    let parts := pySplit user_message ':'
    let categoria := pyStrip (pyReplace (parts.headD "") "/salvar" "")
    let chave := pyStrip ((parts.drop 1).headD "")
    let valor := pyStrip (String.intercalate ":" (parts.drop 2))
    let res := save_knowledge st categoria chave valor
    (if res.1 then "Conhecimento salvo: " ++ categoria ++ ":" ++ chave
     else "Erro ao salvar conhecimento", res.2, false)
  else if recuperarApplies user_message then
    let parts := pySplit user_message ':'
    let categoria := pyStrip (pyReplace (parts.headD "") "/recuperar" "")
    let chave := pyStrip ((parts.drop 1).headD "")
    let valor := get_knowledge st categoria chave
    (if pythonTruthy valor then "Valor recuperado: " ++ valor.getD ""
     else "Conhecimento não encontrado", st, false)
  else
    let res := process_message complete st user_message
    (res.1, res.2, true)

/-! ## Helper lemmas -/

theorem filter_not_filter_self {α : Type} (p : α → Bool) (l : List α) :
    (l.filter (fun a => !(p a))).filter p = [] := by
  induction l with
  | nil => rfl
  | cons a l ih =>
    by_cases h : p a = true <;> simp [List.filter_cons, h, ih]

theorem filter_not_idem {α : Type} (p : α → Bool) (l : List α) :
    (l.filter (fun a => !(p a))).filter (fun a => !(p a)) =
      l.filter (fun a => !(p a)) := by
  induction l with
  | nil => rfl
  | cons a l ih =>
    by_cases h : p a = true <;> simp [List.filter_cons, h, ih]

theorem matchesCK_self (c k v : String) (i : Nat) :
    matchesCK c k { id := i, category := c, key := k, value := v } = true := by
  simp [matchesCK]

theorem save_knowledge_knowledge (st : DBState) (c k v : String) :
    ((save_knowledge st c k v).2).knowledge =
      st.knowledge.filter (fun f => !(matchesCK c k f)) ++
        [{ id := st.nextKnowId, category := c, key := k, value := v }] := rfl

theorem save_knowledge_twice_knowledge (st : DBState) (c k v1 v2 : String) :
    ((save_knowledge (save_knowledge st c k v1).2 c k v2).2).knowledge =
      st.knowledge.filter (fun f => !(matchesCK c k f)) ++
        [{ id := (save_knowledge st c k v1).2.nextKnowId,
           category := c, key := k, value := v2 }] := by
  rw [save_knowledge_knowledge, save_knowledge_knowledge,
    List.filter_append, filter_not_idem]
  simp [matchesCK]

/-! ## Claims -/

/-- C1: after save_knowledge(category, key, v1) then save_knowledge(category,
key, v2), exactly one knowledge row matches (category, key), get_knowledge
returns v2, and replaying save_knowledge with the same arguments succeeds
and leaves the stored (category, key, value) triples unchanged. -/
theorem save_knowledge_upsert (st : DBState) (c k v1 v2 : String) :
    (((save_knowledge (save_knowledge st c k v1).2 c k v2).2).knowledge.filter
        (matchesCK c k)).length = 1 ∧
    get_knowledge ((save_knowledge (save_knowledge st c k v1).2 c k v2).2) c k =
      some v2 ∧
    (save_knowledge ((save_knowledge (save_knowledge st c k v1).2 c k v2).2) c k v2).1 =
      true ∧
    ((save_knowledge ((save_knowledge (save_knowledge st c k v1).2 c k v2).2) c k v2).2.knowledge.map
        (fun f => (f.category, f.key, f.value)) =
      ((save_knowledge (save_knowledge st c k v1).2 c k v2).2).knowledge.map
        (fun f => (f.category, f.key, f.value))) := by
  have h2 := save_knowledge_twice_knowledge st c k v1 v2
  refine ⟨?_, ?_, rfl, ?_⟩
  · rw [h2, List.filter_append, filter_not_filter_self]
    simp [matchesCK]
  · unfold get_knowledge
    rw [h2, List.filter_append, filter_not_filter_self]
    simp [matchesCK]
  · rw [save_knowledge_knowledge, h2, List.filter_append, filter_not_idem]
    simp [matchesCK]

/-- C2: the freshly created store satisfies the UNIQUE(category, key)
invariant, and every store operation (save_conversation, save_knowledge,
get_knowledge, get_conversation_history) preserves it. -/
theorem storeOps_preserve_knowledgeUnique :
    knowledgeUnique initState ∧
      ∀ (st : DBState) (op : StoreOp),
        knowledgeUnique st → knowledgeUnique (applyOp st op) := by
  refine ⟨by decide, ?_⟩
  intro st op h
  cases op with
  | saveConv u a => exact h
  | getKnow c k => exact h
  | getHist n => exact h
  | saveKnow c k v =>
    show knowledgeUnique (save_knowledge st c k v).2
    unfold knowledgeUnique
    rw [save_knowledge_knowledge, List.map_append]
    apply List.Nodup.append
    · exact List.Nodup.sublist
        (List.Sublist.map _ (List.filter_sublist _)) h
    · simp
    · intro x hx hy
      simp only [List.map_cons, List.map_nil, List.mem_singleton] at hy
      subst hy
      simp only [List.mem_map, List.mem_filter] at hx
      obtain ⟨f, ⟨_, hfp⟩, hproj⟩ := hx
      simp only [matchesCK, Bool.not_eq_true', Bool.and_eq_false_iff,
        beq_eq_false_iff_ne, ne_eq] at hfp
      rcases hfp with hfc | hfk
      · exact hfc (congrArg Prod.fst hproj)
      · exact hfk (congrArg Prod.snd hproj)

/-- Witness for C2 at a concrete state and operation. -/
theorem storeOps_preserve_knowledgeUnique_witness :
    knowledgeUnique initState ∧
      knowledgeUnique (applyOp initState (.saveKnow "fatos" "capital" "Paris")) :=
  ⟨by decide,
   storeOps_preserve_knowledgeUnique.2 initState
     (.saveKnow "fatos" "capital" "Paris") (by decide)⟩

theorem save_conversation_conversations (st : DBState) (u a : String) :
    ((save_conversation st u a).2).conversations =
      st.conversations ++
        [{ id := st.nextConvId, user_message := u, ai_response := a,
           timestamp := st.clock }] := rfl

theorem save_conversation_fresh (st : DBState) (u a : String)
    (h : convIdsFresh st) : convIdsFresh (save_conversation st u a).2 := by
  obtain ⟨hnd, hlt⟩ := h
  constructor
  · rw [save_conversation_conversations, List.map_append]
    refine List.Nodup.append hnd (by simp) ?_
    intro x hx hy
    simp only [List.map_cons, List.map_nil, List.mem_singleton] at hy
    subst hy
    simp only [List.mem_map] at hx
    obtain ⟨cc, hcc, hid⟩ := hx
    exact absurd hid (Nat.ne_of_lt (hlt cc hcc))
  · intro c hc
    rw [save_conversation_conversations] at hc
    rcases List.mem_append.mp hc with hold | hnew
    · exact Nat.lt_trans (hlt c hold) (Nat.lt_succ_self _)
    · rcases List.mem_singleton.mp hnew with rfl
      exact Nat.lt_succ_self _

theorem runSaves_spec (batch : List (String × String)) (st : DBState)
    (h : convIdsFresh st) :
    (runSaves st batch).conversations.length =
        st.conversations.length + batch.length ∧
      convIdsFresh (runSaves st batch) := by
  induction batch generalizing st with
  | nil => exact ⟨rfl, h⟩
  | cons p rest ih =>
    have h' := save_conversation_fresh st p.1 p.2 h
    obtain ⟨ihlen, ihfresh⟩ := ih (save_conversation st p.1 p.2).2 h'
    refine ⟨?_, ihfresh⟩
    rw [runSaves, ihlen, save_conversation_conversations,
      List.length_append]
    simp
    omega

/-- C3: the db_lock makes each save_conversation one atomic transition, so
an execution of M concurrent callers is the sequential run of their M saves
in some arrival order; every save succeeds, and afterwards the table has
grown by exactly M rows whose ids are pairwise distinct. -/
theorem save_conversation_serialized (st : DBState)
    (batch : List (String × String)) (h : convIdsFresh st) :
    (runSaves st batch).conversations.length =
        st.conversations.length + batch.length ∧
      ((runSaves st batch).conversations.map (fun c => c.id)).Nodup ∧
      ∀ u a : String, (save_conversation st u a).1 = true :=
  ⟨(runSaves_spec batch st h).1, (runSaves_spec batch st h).2.1,
   fun _ _ => rfl⟩

/-- Witness for C3: two saves on the fresh store yield two rows with
distinct ids. -/
theorem save_conversation_serialized_witness :
    convIdsFresh initState ∧
      ((runSaves initState [("oi", "ola"), ("tudo", "bem")]).conversations.length =
          initState.conversations.length + 2 ∧
        ((runSaves initState [("oi", "ola"), ("tudo", "bem")]).conversations.map
            (fun c => c.id)).Nodup ∧
        ∀ u a : String, (save_conversation initState u a).1 = true) :=
  ⟨by decide,
   save_conversation_serialized initState [("oi", "ola"), ("tudo", "bem")]
     (by decide)⟩

/-- C4: get_conversation_history(N) returns at most N pairs, the empty
sequence on an empty table, and the underlying rows are ordered most
recent (largest timestamp) first. -/
theorem get_conversation_history_spec (st : DBState) (N : Nat) :
    (get_conversation_history st N).length ≤ N ∧
      (st.conversations = [] → get_conversation_history st N = []) ∧
      (convTimesMono st →
        (historyRows st N).Pairwise (fun a b => b.timestamp < a.timestamp)) := by
  refine ⟨?_, ?_, ?_⟩
  · simp only [get_conversation_history, historyRows, List.length_map,
      List.length_take]
    omega
  · intro h
    simp [get_conversation_history, historyRows, h]
  · intro h
    unfold historyRows
    exact List.Pairwise.sublist (List.take_sublist _ _)
      ((List.pairwise_reverse).mpr h)

/-- Witness for C4 on the fresh store with limit 3. -/
theorem get_conversation_history_spec_witness :
    (get_conversation_history initState 3).length ≤ 3 ∧
      get_conversation_history initState 3 = [] ∧
      (historyRows initState 3).Pairwise (fun a b => b.timestamp < a.timestamp) :=
  ⟨(get_conversation_history_spec initState 3).1,
   (get_conversation_history_spec initState 3).2.1 rfl,
   (get_conversation_history_spec initState 3).2.2 (by decide)⟩

/-- C5: a (category, key) never written reads back as None, and an
underlying database failure in any of the four store operations is caught
at the store boundary and surfaces only as the sentinel result
(None, empty sequence, or False) with the state unchanged — so a caller
cannot tell "no knowledge found" from "lookup failed". -/
theorem store_failures_sentinel :
    (∀ (st : DBState) (c k : String),
        (∀ f ∈ st.knowledge, ¬(f.category = c ∧ f.key = k)) →
          get_knowledge st c k = none) ∧
      (∀ (st : DBState) (c k : String), get_knowledge_f true st c k = none) ∧
      (∀ (st : DBState) (c k v : String),
        save_knowledge_f true st c k v = (false, st)) ∧
      (∀ (st : DBState) (u a : String),
        save_conversation_f true st u a = (false, st)) ∧
      (∀ (st : DBState) (n : Nat),
        get_conversation_history_f true st n = []) := by
  refine ⟨?_, fun st c k => rfl, fun st c k v => rfl, fun st u a => rfl,
    fun st n => rfl⟩
  intro st c k h
  have hfil : st.knowledge.filter (matchesCK c k) = [] := by
    rw [List.filter_eq_nil_iff]
    intro f hf
    have := h f hf
    simp only [matchesCK, Bool.and_eq_true, beq_iff_eq]
    exact fun hck => this hck
  rw [get_knowledge, hfil]
  rfl

/-- Witness for C5: reading an unwritten key from the fresh store. -/
theorem store_failures_sentinel_witness :
    (∀ f ∈ initState.knowledge, ¬(f.category = "fatos" ∧ f.key = "capital")) ∧
      get_knowledge initState "fatos" "capital" = none :=
  ⟨by simp [initState],
   store_failures_sentinel.1 initState "fatos" "capital" (by simp [initState])⟩

/-- C6: when the completion call raised, process_message catches the
exception and returns the apologetic message embedding the error text,
leaving the store unchanged. -/
theorem process_message_error_apology
    (complete : List Message → Except String String) (st : DBState)
    (msg e : String)
    (h : complete (buildMessages msg
        (contextoOf (get_conversation_history st 2))) = .error e) :
    process_message complete st msg =
      ("Desculpe, ocorreu um erro: " ++ e, st) := by
  simp [process_message, generate_response, h]

/-- Witness for C6: a completion that always raises. -/
theorem process_message_error_apology_witness :
    process_message (fun _ => Except.error "falha") initState "oi" =
      ("Desculpe, ocorreu um erro: falha", initState) :=
  process_message_error_apology (fun _ => Except.error "falha") initState
    "oi" "falha" rfl

/-- C7: the context string concatenates one "user -> response" fragment per
history entry joined by single spaces in the order the store returns them;
the completion request carries a second system message exactly when the
context string is non-empty; and after one normal exchange the second
call's context string is the first exchange formatted as "msg1 -> resp1". -/
theorem context_construction :
    (∀ u1 a1 u2 a2 : String,
        contextoOf [(u1, a1), (u2, a2)] =
          u1 ++ " -> " ++ a1 ++ " " ++ (u2 ++ " -> " ++ a2)) ∧
      (∀ prompt ctx : String, ctx ≠ "" →
        buildMessages prompt ctx =
          [{ role := "system", content := systemPersona },
           { role := "system", content := "Contexto adicional: " ++ ctx },
           { role := "user", content := prompt }]) ∧
      (∀ prompt : String,
        buildMessages prompt "" =
          [{ role := "system", content := systemPersona },
           { role := "user", content := prompt }]) ∧
      (∀ (complete : List Message → Except String String) (st : DBState)
          (m1 r1 : String),
        st.conversations = [] →
        complete (buildMessages m1 "") = .ok r1 →
        contextoOf
            (get_conversation_history (process_message complete st m1).2 2) =
          m1 ++ " -> " ++ r1) := by
  refine ⟨?_, ?_, ?_, ?_⟩
  · intro u1 a1 u2 a2
    simp [contextoOf, String.intercalate, String.intercalate.go]
  · intro prompt ctx h
    simp [buildMessages, h]
  · intro prompt
    simp [buildMessages]
  · intro complete st m1 r1 hemp hok
    have hhist : get_conversation_history st 2 = [] := by
      simp [get_conversation_history, historyRows, hemp]
    have hctx : contextoOf (get_conversation_history st 2) = "" := by
      rw [hhist]; rfl
    have hpm : process_message complete st m1 =
        (r1, (save_conversation st m1 r1).2) := by
      simp [process_message, generate_response, hctx, hok]
    rw [hpm]
    have hone : get_conversation_history (save_conversation st m1 r1).2 2 =
        [(m1, r1)] := by
      simp [get_conversation_history, historyRows,
        save_conversation_conversations, hemp]
    rw [hone]
    simp [contextoOf, String.intercalate, String.intercalate.go]

/-- Witness for C7 at concrete strings and a completion returning "r". -/
theorem context_construction_witness :
    contextoOf [("a", "b"), ("c", "d")] =
        "a" ++ " -> " ++ "b" ++ " " ++ ("c" ++ " -> " ++ "d") ∧
      (("ctx" : String) ≠ "" ∧
        buildMessages "p" "ctx" =
          [{ role := "system", content := systemPersona },
           { role := "system", content := "Contexto adicional: " ++ "ctx" },
           { role := "user", content := "p" }]) ∧
      buildMessages "p" "" =
        [{ role := "system", content := systemPersona },
         { role := "user", content := "p" }] ∧
      contextoOf
          (get_conversation_history
            (process_message (fun _ => Except.ok "r") initState "m").2 2) =
        "m" ++ " -> " ++ "r" :=
  ⟨context_construction.1 "a" "b" "c" "d",
   ⟨by decide, context_construction.2.1 "p" "ctx" (by decide)⟩,
   context_construction.2.2.1 "p",
   context_construction.2.2.2 (fun _ => Except.ok "r") initState "m" "r"
     rfl rfl⟩

/-- C8 counterexample: the message "/salvar oi" begins with '/salvar' but
its ':'-split has fewer than 3 parts, so the chat handler falls through to
process_message and the AI completion path runs. -/
theorem salvar_prefix_can_reach_ai :
    pyStartsWith "/salvar oi" "/salvar" = true ∧
      (chat (fun _ => Except.error "falha") initState "/salvar oi").2.2 =
        true := by
  decide

/-- C8 (amended): a message beginning with '/salvar' whose ':'-split has at
least 3 parts, or beginning with '/recuperar' whose ':'-split has exactly
2 parts, is handled without running the AI completion path. -/
theorem wellformed_commands_bypass_ai
    (complete : List Message → Except String String) (st : DBState)
    (msg : String)
    (h : salvarApplies msg = true ∨ recuperarApplies msg = true) :
    (chat complete st msg).2.2 = false := by
  rcases h with h | h
  · simp [chat, h]
  · by_cases hs : salvarApplies msg = true <;> simp [chat, hs, h]

/-- Witness for the amended C8 on a well-formed /salvar command. -/
theorem wellformed_commands_bypass_ai_witness :
    (salvarApplies "/salvar a:b:c" = true ∨
        recuperarApplies "/salvar a:b:c" = true) ∧
      (chat (fun _ => Except.error "e") initState "/salvar a:b:c").2.2 =
        false :=
  ⟨Or.inl (by decide),
   wellformed_commands_bypass_ai (fun _ => Except.error "e") initState
     "/salvar a:b:c" (Or.inl (by decide))⟩

/-- C9: the command round trip — '/salvar fatos:capital:Paris' then
'/recuperar fatos:capital' answers "Valor recuperado: Paris", and a value
containing ':' is rejoined and stored verbatim. -/
theorem command_roundtrip_examples :
    (chat (fun _ => Except.error "e")
        (chat (fun _ => Except.error "e") initState
          "/salvar fatos:capital:Paris").2.1
        "/recuperar fatos:capital").1 = "Valor recuperado: Paris" ∧
      get_knowledge
          (chat (fun _ => Except.error "e") initState
            "/salvar fatos:citacao:Diga \"Olá\":mundo").2.1
          "fatos" "citacao" = some "Diga \"Olá\":mundo" := by
  decide

/-- C10: when the stored value for the looked-up (category, key) is the
empty string, the /recuperar reply is "Conhecimento não encontrado" — at
the chat endpoint an existing empty value is indistinguishable from a key
never written. -/
theorem recuperar_empty_value_not_found
    (complete : List Message → Except String String) (st : DBState)
    (msg p0 p1 : String)
    (hsal : pyStartsWith msg "/salvar" = false)
    (hrec : pyStartsWith msg "/recuperar" = true)
    (hsplit : pySplit msg ':' = [p0, p1])
    (hval : get_knowledge st (pyStrip (pyReplace p0 "/recuperar" ""))
        (pyStrip p1) = some "") :
    (chat complete st msg).1 = "Conhecimento não encontrado" := by
  have hsApp : salvarApplies msg = false := by
    simp [salvarApplies, hsal]
  have hrApp : recuperarApplies msg = true := by
    simp [recuperarApplies, hrec, hsplit]
  simp [chat, hsApp, hrApp, hsplit, hval, pythonTruthy]

/-- Witness for C10: a store holding the empty string under
("fatos", "x"). -/
theorem recuperar_empty_value_not_found_witness :
    pyStartsWith "/recuperar fatos:x" "/salvar" = false ∧
      pyStartsWith "/recuperar fatos:x" "/recuperar" = true ∧
      pySplit "/recuperar fatos:x" ':' = ["/recuperar fatos", "x"] ∧
      get_knowledge
          { initState with
            knowledge := [{ id := 1, category := "fatos", key := "x", value := "" }] }
          (pyStrip (pyReplace "/recuperar fatos" "/recuperar" ""))
          (pyStrip "x") = some "" ∧
      (chat (fun _ => Except.error "e")
          { initState with
            knowledge := [{ id := 1, category := "fatos", key := "x", value := "" }] }
          "/recuperar fatos:x").1 = "Conhecimento não encontrado" :=
  ⟨by decide, by decide, by decide, by decide,
   recuperar_empty_value_not_found (fun _ => Except.error "e")
     { initState with
       knowledge := [{ id := 1, category := "fatos", key := "x", value := "" }] }
     "/recuperar fatos:x" "/recuperar fatos" "x"
     (by decide) (by decide) (by decide) (by decide)⟩
